import Mathlib

/-!
Verification development for the coinbot arbitrage-detection and
trade-execution engine.  The JavaScript services are shallowly embedded:
pure computations become Lean functions over `ℚ`, the effectful steps of
the monitoring and trade-execution workflows become explicit
state-or-outcome passing, and JavaScript's special float values
(Infinity, NaN) are modelled where the code can produce them.
-/

namespace Coinbot

/-- One price level of an order book side: a price and a quantity, as the
exchange adapters produce them from the raw feed fields. -/
structure OrderLevel where
  price : ℚ
  quantity : ℚ
deriving Repr, DecidableEq

/-- An order book snapshot in the shape returned by the exchange adapters
(`asks` and `bids` lists of levels). -/
structure Orderbook where
  asks : List OrderLevel
  bids : List OrderLevel
deriving Repr, DecidableEq

/-- The side selector argument of `ExchangeService.calculateAveragePrice`. -/
inductive Side
  | ask
  | bid
deriving Repr, DecidableEq

/-- The result object of `ExchangeService.calculateAveragePrice`. -/
structure AvgResult where
  averagePrice : ℚ
  totalQuantity : ℚ
  totalAmount : ℚ
  ordersCount : ℕ
deriving Repr, DecidableEq

/-- Model of `ExchangeService.calculateAveragePrice(orderbookData, side, limit = 5)`:
selects the requested side, truncates to the first `limit` levels,
accumulates the total quantity and the total amount (price times quantity)
over those levels, returns `null` (here `none`) when the total quantity is
zero, and otherwise the volume-weighted average price together with the
total quantity, total amount and the number of levels used. -/
def calculateAveragePrice (orderbookData : Orderbook) (side : Side) (limit : ℕ := 5) :
    Option AvgResult :=
  let orders := match side with
    | .ask => orderbookData.asks
    | .bid => orderbookData.bids
  let limitedOrders := orders.take limit
  let totalQuantity := limitedOrders.foldl (fun acc order => acc + order.quantity) 0
  let totalAmount := limitedOrders.foldl (fun acc order => acc + order.price * order.quantity) 0
  if totalQuantity = 0 then none
  else
    some { averagePrice := totalAmount / totalQuantity
           totalQuantity := totalQuantity
           totalAmount := totalAmount
           ordersCount := limitedOrders.length }

/-- Ascending-price comparison used by the adapters' `sort((a, b) => a.price - b.price)`. -/
def priceAsc (a b : OrderLevel) : Prop := a.price ≤ b.price

/-- Descending-price comparison used by the adapters' `sort((a, b) => b.price - a.price)`. -/
def priceDesc (a b : OrderLevel) : Prop := b.price ≤ a.price

instance : DecidableRel priceAsc := fun a b => inferInstanceAs (Decidable (a.price ≤ b.price))

instance : DecidableRel priceDesc := fun a b => inferInstanceAs (Decidable (b.price ≤ a.price))

/-- One raw `orderbook_units` entry of the Upbit order book response. -/
structure UpbitUnit where
  ask_price : ℚ
  ask_size : ℚ
  bid_price : ℚ
  bid_size : ℚ
deriving Repr, DecidableEq

/-- The ask level extracted from an Upbit order book unit. -/
def UpbitUnit.askLevel (u : UpbitUnit) : OrderLevel := ⟨u.ask_price, u.ask_size⟩

/-- The bid level extracted from an Upbit order book unit. -/
def UpbitUnit.bidLevel (u : UpbitUnit) : OrderLevel := ⟨u.bid_price, u.bid_size⟩

/-- Model of `UpbitService.getOrderbook(market, limit = 5)`: the raw
`orderbook_units` array is truncated to the first `limit` entries by
`slice(0, limit)` and only then are the resulting asks sorted by ascending
price and the resulting bids by descending price (JavaScript's stable
`Array.prototype.sort`, modelled by a stable insertion sort). -/
def upbitGetOrderbook (units : List UpbitUnit) (limit : ℕ := 5) : Orderbook :=
  let sliced := units.take limit
  { asks := List.insertionSort priceAsc (sliced.map UpbitUnit.askLevel)
    bids := List.insertionSort priceDesc (sliced.map UpbitUnit.bidLevel) }

/-- Model of `BinanceService.getOrderbook(symbol, limit = 5)`: each raw side
is truncated by `slice(0, limit)` and its `[price, qty]` pairs are parsed;
no sorting of either side is performed. -/
def binanceGetOrderbook (asks bids : List (ℚ × ℚ)) (limit : ℕ := 5) : Orderbook :=
  { asks := (asks.take limit).map fun p => ⟨p.1, p.2⟩
    bids := (bids.take limit).map fun p => ⟨p.1, p.2⟩ }

/-- A JavaScript number as the premium pipeline can observe it: a finite
value (modelled exactly as a rational), one of the two infinities, or NaN.
JavaScript arithmetic on these values never throws. -/
inductive JSNum
  | num (q : ℚ)
  | posInf
  | negInf
  | nan
deriving Repr, DecidableEq

namespace JSNum

/-- Whether a JavaScript number is finite (`Number.isFinite`). -/
def isFinite : JSNum → Bool
  | num _ => true
  | _ => false

/-- JavaScript subtraction, including its Infinity/NaN propagation rules. -/
def jsSub : JSNum → JSNum → JSNum
  | nan, _ => nan
  | _, nan => nan
  | num a, num b => num (a - b)
  | num _, posInf => negInf
  | num _, negInf => posInf
  | posInf, num _ => posInf
  | posInf, posInf => nan
  | posInf, negInf => posInf
  | negInf, num _ => negInf
  | negInf, posInf => negInf
  | negInf, negInf => nan

/-- JavaScript multiplication, including its Infinity/NaN propagation rules
(`Infinity * 0` is NaN). -/
def jsMul : JSNum → JSNum → JSNum
  | nan, _ => nan
  | _, nan => nan
  | num a, num b => num (a * b)
  | num a, posInf => if 0 < a then posInf else if a < 0 then negInf else nan
  | num a, negInf => if 0 < a then negInf else if a < 0 then posInf else nan
  | posInf, num b => if 0 < b then posInf else if b < 0 then negInf else nan
  | negInf, num b => if 0 < b then negInf else if b < 0 then posInf else nan
  | posInf, posInf => posInf
  | posInf, negInf => negInf
  | negInf, posInf => negInf
  | negInf, negInf => posInf

/-- JavaScript division.  A finite dividend over the (unsigned) zero gives
`Infinity` with the dividend's sign, and `0 / 0` gives NaN; nothing is
thrown and no error is reported. -/
def jsDiv : JSNum → JSNum → JSNum
  | nan, _ => nan
  | _, nan => nan
  | num a, num b =>
      if b = 0 then (if 0 < a then posInf else if a < 0 then negInf else nan)
      else num (a / b)
  | num _, posInf => num 0
  | num _, negInf => num 0
  | posInf, num b => if 0 ≤ b then posInf else negInf
  | negInf, num b => if 0 ≤ b then negInf else posInf
  | posInf, _ => nan
  | negInf, _ => nan

end JSNum

/-- The premium formula shared by `KimchiMonitoringService.calculateCoinPremium`
and `TradeExecutionService.analyzeMarket`:
`((upbitSellPrice - binanceBuyPriceKrw) / binanceBuyPriceKrw) * 100`,
evaluated with JavaScript arithmetic.  The source applies no guard on a
zero divisor. -/
def calculateCoinPremiumPercent (upbitSellPrice binanceBuyPriceKrw : JSNum) : JSNum :=
  JSNum.jsMul (JSNum.jsDiv (JSNum.jsSub upbitSellPrice binanceBuyPriceKrw) binanceBuyPriceKrw)
    (JSNum.num 100)

/-- The premium stage of `KimchiMonitoringService.calculateCoinPremium`:
its surrounding `try`/`catch` turns a thrown exception into `null`, but the
premium division itself is plain JavaScript arithmetic which never throws,
so once both averaged prices are available a premium value is always
produced and stored in the result object, whatever its value. -/
def calculateCoinPremiumStage (upbitSellPrice binanceBuyPriceKrw : JSNum) : Option JSNum :=
  some (calculateCoinPremiumPercent upbitSellPrice binanceBuyPriceKrw)

/-- A TradingOpportunity event as built by
`KimchiMonitoringService.notifyTradingOpportunity` and pushed onto the
`trading_opportunities` list. -/
structure Opportunity where
  symbol : String
  premiumPercent : ℚ
  intensity : ℤ
deriving Repr, DecidableEq

/-- The observable outcome of one intensity update: the intensity read from
the store, the newly computed intensity, the database row write and cache
write performed (if any), and the TradingOpportunity events emitted. -/
structure IntensityUpdate where
  previousIntensity : ℤ
  newIntensity : ℤ
  dbWrite : Option (ℤ × ℚ)
  cacheWrite : Option ℤ
  emitted : List Opportunity
deriving Repr, DecidableEq

/-- Model of `KimchiMonitoringService.updateTradingIntensity(symbol, premiumPercent)`
for the global scope.  `stored` is the `current_intensity` of the scope's
`trading_intensity` row, or `none` when no row matches (the source then
uses 0).  If `|premiumPercent|` is at least the configured
`premiumThresholdPercent` the intensity increases by 1, otherwise it
decreases by 1 floored at 0.  The database and Redis writes happen only
when the new intensity differs from the current one, and a
TradingOpportunity is emitted whenever the new intensity is at least
`tradingIntensityThreshold`. -/
def updateTradingIntensity (symbol : String) (stored : Option ℤ)
    (premiumPercent premiumThresholdPercent : ℚ) (tradingIntensityThreshold : ℤ) :
    IntensityUpdate :=
  let currentIntensity := stored.getD 0
  let newIntensity :=
    if |premiumPercent| ≥ premiumThresholdPercent then currentIntensity + 1
    else max (currentIntensity - 1) 0
  { previousIntensity := currentIntensity
    newIntensity := newIntensity
    dbWrite := if newIntensity ≠ currentIntensity then some (newIntensity, premiumPercent) else none
    cacheWrite := if newIntensity ≠ currentIntensity then some newIntensity else none
    emitted :=
      if newIntensity ≥ tradingIntensityThreshold then
        [⟨symbol, premiumPercent, newIntensity⟩]
      else [] }

/-- Model of `KimchiMonitoringService.updateUserTradingIntensity(userId, symbol,
premiumPercent, userThreshold)` for a per-user scope.  The intensity rule and
the changed-only write are the same as the global scope's, but the function
contains no trigger check at all: it never calls `notifyTradingOpportunity`
and emits no event, whatever the new intensity. -/
def updateUserTradingIntensity (userId : ℕ) (symbol : String) (stored : Option ℤ)
    (premiumPercent userThreshold : ℚ) : IntensityUpdate :=
  let currentIntensity := stored.getD 0
  let newIntensity :=
    if |premiumPercent| ≥ userThreshold then currentIntensity + 1
    else max (currentIntensity - 1) 0
  { previousIntensity := currentIntensity
    newIntensity := newIntensity
    dbWrite := if newIntensity ≠ currentIntensity then some (newIntensity, premiumPercent) else none
    cacheWrite := if newIntensity ≠ currentIntensity then some newIntensity else none
    emitted := [] }

/-- The stored intensity after an update: the written value when a write
happened, the previous stored value otherwise. -/
def IntensityUpdate.storedAfter (stored : Option ℤ) (u : IntensityUpdate) : Option ℤ :=
  match u.dbWrite with
  | some (v, _) => some v
  | none => stored

/-- The status column of a `trade_history` row. -/
inductive TradeStatus
  | pending
  | buying
  | transferring
  | selling
  | completed
  | failed
deriving Repr, DecidableEq

/-- Whether a trade status is terminal (`completed` or `failed`). -/
def TradeStatus.isTerminal : TradeStatus → Bool
  | completed => true
  | failed => true
  | _ => false

/-- The full success chain of trade statuses. -/
def statusChain : List TradeStatus := [.pending, .buying, .transferring, .selling, .completed]

/-- The trade parameters computed by
`TradeExecutionService.calculateTradeParameters` and consumed by the trade
cycle and the profit computation. -/
structure TradeParams where
  buyPrice : ℚ
  sellPrice : ℚ
  quantity : ℚ
  tradingFeeRate : ℚ
deriving Repr, DecidableEq

/-- The columns of a `coins` row that the engine reads (the withdrawal fee
may be NULL, which the source defaults to 0 with `|| 0`). -/
structure Coin where
  withdrawal_fee : Option ℚ
deriving Repr, DecidableEq

/-- The profit figures returned by `TradeExecutionService.calculateProfit`. -/
structure ProfitCalc where
  grossProfit : ℚ
  netProfit : ℚ
  profitRate : ℚ
  tradingFees : ℚ
  transferFees : ℚ
deriving Repr, DecidableEq

/-- Model of `TradeExecutionService.calculateProfit(tradeParams, coin)`:
gross profit over the executed quantity, buy-side and sell-side trading
fees at the configured rate, the coin withdrawal fee valued at the sell
price, and the resulting net profit and profit rate. -/
def calculateProfit (tradeParams : TradeParams) (coin : Coin) : ProfitCalc :=
  let buyPrice := tradeParams.buyPrice
  let sellPrice := tradeParams.sellPrice
  let quantity := tradeParams.quantity
  let tradingFeeRate := tradeParams.tradingFeeRate
  let grossProfit := (sellPrice - buyPrice) * quantity
  let buyFee := buyPrice * quantity * tradingFeeRate
  let sellFee := sellPrice * quantity * tradingFeeRate
  let tradingFees := buyFee + sellFee
  let transferFees := (coin.withdrawal_fee.getD 0) * sellPrice
  let netProfit := grossProfit - tradingFees - transferFees
  let profitRate := netProfit / (buyPrice * quantity) * 100
  { grossProfit := grossProfit
    netProfit := netProfit
    profitRate := profitRate
    tradingFees := tradingFees
    transferFees := transferFees }

/-- The error message thrown by `TradeExecutionService.executeBuyOrder`
when `dryRun` is false: real order placement is unimplemented. -/
def buyNotImplementedMsg : String := "실제 매수 주문 기능은 아직 구현되지 않았습니다"

/-- The error message thrown by `TradeExecutionService.executeTransfer`
when `dryRun` is false. -/
def transferNotImplementedMsg : String := "실제 코인 전송 기능은 아직 구현되지 않았습니다"

/-- The error message thrown by `TradeExecutionService.executeSellOrder`
when `dryRun` is false. -/
def sellNotImplementedMsg : String := "실제 매도 주문 기능은 아직 구현되지 않았습니다"

/-- Model of `TradeExecutionService.executeBuyOrder`: in dry-run mode it
only simulates a delay and succeeds; in live mode it unconditionally
throws the not-implemented error. -/
def executeBuyOrder (dryRun : Bool) : Except String Unit :=
  if dryRun then .ok () else .error buyNotImplementedMsg

/-- Model of `TradeExecutionService.executeTransfer`: simulated delay in
dry-run mode, unconditional not-implemented error in live mode. -/
def executeTransfer (dryRun : Bool) : Except String Unit :=
  if dryRun then .ok () else .error transferNotImplementedMsg

/-- Model of `TradeExecutionService.executeSellOrder`: simulated delay in
dry-run mode, unconditional not-implemented error in live mode. -/
def executeSellOrder (dryRun : Bool) : Except String Unit :=
  if dryRun then .ok () else .error sellNotImplementedMsg

/-- The outcome of `TradeExecutionService.executeTradeCycle`: whether the
cycle succeeded, the captured step error, the profit figures (zero on
failure, as the source returns them), and the status values it wrote to
the trade record, in order. -/
structure CycleResult where
  success : Bool
  error : Option String
  grossProfit : ℚ
  netProfit : ℚ
  profitRate : ℚ
  tradingFees : ℚ
  transferFees : ℚ
  statusWrites : List TradeStatus
deriving Repr, DecidableEq

/-- Model of `TradeExecutionService.executeTradeCycle`: writes `buying`,
runs the buy step, writes `transferring`, runs the transfer step, writes
`selling`, runs the sell step, then computes the profit; any step error is
caught and turned into a failure outcome with zero profit figures. -/
def executeTradeCycle (tradeParams : TradeParams) (coin : Coin) (dryRun : Bool) : CycleResult :=
  match executeBuyOrder dryRun with
  | .error e => ⟨false, some e, 0, 0, 0, 0, 0, [.buying]⟩
  | .ok _ =>
    match executeTransfer dryRun with
    | .error e => ⟨false, some e, 0, 0, 0, 0, 0, [.buying, .transferring]⟩
    | .ok _ =>
      match executeSellOrder dryRun with
      | .error e => ⟨false, some e, 0, 0, 0, 0, 0, [.buying, .transferring, .selling]⟩
      | .ok _ =>
        let p := calculateProfit tradeParams coin
        ⟨true, none, p.grossProfit, p.netProfit, p.profitRate, p.tradingFees, p.transferFees,
          [.buying, .transferring, .selling]⟩

/-- The observable outcome of one `TradeExecutionService.executeOnce` call:
the shape of the returned result, whether the per-(user, symbol) lock was
acquired and whether it is still held when the call returns, whether a
trade record was created, the sequence of status values written to that
record, whether `completed_at` was set, and the recorded error message. -/
structure ExecOutcome where
  success : Bool
  lockAcquired : Bool
  lockHeldAfter : Bool
  recordCreated : Bool
  statusTrace : List TradeStatus
  completedAtSet : Bool
  recordError : Option String
  resultError : Option String
  netProfit : ℚ
  profitRate : ℚ
deriving Repr, DecidableEq

/-- The "already in progress" message thrown when the lock is held. -/
def lockBusyMsg (symbol : String) : String := symbol ++ " 거래가 이미 진행 중입니다"

/-- Model of `TradeExecutionService.executeOnce(userId, symbol, budgetKrw, dryRun)`.
The effectful collaborators are passed as outcomes: `lockFree` is whether
the Redis `SET NX` acquired the lock, `validation` the outcome of
`validateTradeConditions`, `create` the outcome of the `pending`-row
insert, `analyze` the outcome of `analyzeMarket` (its network fetches can
throw).  The source acquires the lock first, then validates, then creates
the record, then analyzes, computes the trade parameters, runs the trade
cycle and finalizes the record; every thrown error is caught, marks the
record failed when one exists, and yields a structured failure result; the
`finally` block always releases a lock this call acquired (the ownership
token still matches within the model's single call). -/
def executeOnce (symbol : String) (lockFree : Bool) (validation : Except String Unit)
    (create : Except String Unit) (analyze : Except String Unit)
    (tradeParams : TradeParams) (coin : Coin) (dryRun : Bool) : ExecOutcome :=
  if ¬lockFree then
    { success := false, lockAcquired := false, lockHeldAfter := false, recordCreated := false
      statusTrace := [], completedAtSet := false, recordError := none
      resultError := some (lockBusyMsg symbol), netProfit := 0, profitRate := 0 }
  else
    match validation with
    | .error e =>
      { success := false, lockAcquired := true, lockHeldAfter := false, recordCreated := false
        statusTrace := [], completedAtSet := false, recordError := none
        resultError := some e, netProfit := 0, profitRate := 0 }
    | .ok _ =>
      match create with
      | .error e =>
        { success := false, lockAcquired := true, lockHeldAfter := false, recordCreated := false
          statusTrace := [], completedAtSet := false, recordError := none
          resultError := some e, netProfit := 0, profitRate := 0 }
      | .ok _ =>
        match analyze with
        | .error e =>
          { success := false, lockAcquired := true, lockHeldAfter := false, recordCreated := true
            statusTrace := [.pending, .failed], completedAtSet := true, recordError := some e
            resultError := some e, netProfit := 0, profitRate := 0 }
        | .ok _ =>
          let cycle := executeTradeCycle tradeParams coin dryRun
          { success := cycle.success, lockAcquired := true, lockHeldAfter := false
            recordCreated := true
            statusTrace :=
              .pending :: cycle.statusWrites ++ [if cycle.success then .completed else .failed]
            completedAtSet := true, recordError := cycle.error, resultError := none
            netProfit := cycle.netProfit, profitRate := cycle.profitRate }

/-- A deposit address row as `UserSettingsService.getDepositAddress`
returns it; the address field itself may be absent or empty. -/
structure DepositAddr where
  address : Option String
  memo : Option String
deriving Repr, DecidableEq

/-- JavaScript truthiness of `addr?.address`: false when the row is
missing, the address is absent, or the address is the empty string. -/
def addrPresent (a : Option DepositAddr) : Bool :=
  match a with
  | none => false
  | some d =>
    match d.address with
    | none => false
    | some s => s ≠ ""

/-- An `exchanges` row as read by the validation query (active exchanges
named 업비트 or 바이낸스). -/
structure ExchangeRow where
  name : String
  id : ℕ
deriving Repr, DecidableEq

/-- The data `TradeExecutionService.validateTradeConditions` reads from its
collaborators: the decoded numeric bot settings (absent when the row is
missing), the requested budget, the active-and-tradable coin row (if any),
the active counterpart exchange rows, the number of exchanges with
verified credentials, and the two deposit address rows. -/
structure ValidationInputs where
  minTradeAmountKrw : Option ℚ
  maxTradeAmountKrw : Option ℚ
  premiumThresholdPercent : Option ℚ
  tradingIntensityThreshold : Option ℚ
  budgetKrw : ℚ
  coin : Option Coin
  activeExchanges : List ExchangeRow
  verifiedExchangeCount : ℕ
  upbitAddr : Option DepositAddr
  binanceAddr : Option DepositAddr
deriving Repr, DecidableEq

/-- Model of `TradeExecutionService.validateTradeConditions(userId, symbol,
budgetKrw)`, checked in source order: required settings present, budget
within the configured bounds, coin active and tradable, both counterpart
exchanges active, at least two verified credentials, and both deposit
addresses configured.  The first failing check produces the error result
(locale formatting of the budget bounds message is elided). -/
def validateTradeConditions (symbol : String) (v : ValidationInputs) : Except String Unit :=
  let missingSettings :=
    (if v.minTradeAmountKrw = none then ["min_trade_amount_krw"] else []) ++
    (if v.maxTradeAmountKrw = none then ["max_trade_amount_krw"] else []) ++
    (if v.premiumThresholdPercent = none then ["premium_threshold_percent"] else []) ++
    (if v.tradingIntensityThreshold = none then ["trading_intensity_threshold"] else [])
  if missingSettings ≠ [] then
    .error ("봇 설정이 완료되지 않았습니다: " ++ String.intercalate ", " missingSettings)
  else if v.budgetKrw < v.minTradeAmountKrw.getD 0 ∨ v.maxTradeAmountKrw.getD 0 < v.budgetKrw then
    .error "거래 금액은 설정된 최소 금액과 최대 금액 범위여야 합니다"
  else
    match v.coin with
    | none => .error ("거래 불가능한 코인입니다: " ++ symbol)
    | some _ =>
      if v.activeExchanges.length < 2 then
        .error "업비트와 바이낸스가 모두 활성화되어야 합니다"
      else if v.verifiedExchangeCount < 2 then
        .error "최소 2개 거래소의 인증된 API 키가 필요합니다"
      else if ¬(addrPresent v.upbitAddr ∧ addrPresent v.binanceAddr) then
        .error ("업비트와 바이낸스 " ++ symbol ++ " 입금주소가 모두 필요합니다")
      else
        .ok ()

/-- Intensity writes happen only when the new intensity differs from the
stored one, and otherwise the stored state is untouched. -/
def writeOnlyOnChange (stored : Option ℤ) (u : IntensityUpdate) : Prop :=
  (u.dbWrite = none ↔ u.newIntensity = u.previousIntensity) ∧
  (u.cacheWrite = none ↔ u.newIntensity = u.previousIntensity) ∧
  u.storedAfter stored =
    (if u.newIntensity = u.previousIntensity then stored else some u.newIntensity)

theorem foldl_add_eq_sum {α : Type} (f : α → ℚ) (l : List α) :
    ∀ acc : ℚ, l.foldl (fun a o => a + f o) acc = acc + (l.map f).sum := by
  induction l with
  | nil => intro acc; simp
  | cons x xs ih => intro acc; simp [ih, add_assoc]

theorem writeOnlyOnChange_mk (stored : Option ℤ) (newI : ℤ) (p : ℚ) (em : List Opportunity) :
    writeOnlyOnChange stored
      { previousIntensity := stored.getD 0
        newIntensity := newI
        dbWrite := if newI ≠ stored.getD 0 then some (newI, p) else none
        cacheWrite := if newI ≠ stored.getD 0 then some newI else none
        emitted := em } := by
  by_cases h : newI = stored.getD 0 <;>
    simp [writeOnlyOnChange, IntensityUpdate.storedAfter, h]

theorem foldl_step_nonneg (step : ℤ → ℚ → ℤ) (hstep : ∀ c q, 0 ≤ c → 0 ≤ step c q) :
    ∀ (ps : List ℚ) (c : ℤ), 0 ≤ c → 0 ≤ ps.foldl step c := by
  intro ps
  induction ps with
  | nil => intro c hc; simpa using hc
  | cons p ps ih => intro c hc; exact ih _ (hstep c p hc)

/-- C4: `calculateAveragePrice` returns the volume-weighted average price
`Σ(price·qty) / Σ(qty)` over the first K levels of the selected side,
together with the summed quantity, summed amount and the count of levels
used, and returns `none` exactly when the total quantity over those levels
is zero. -/
theorem calculateAveragePrice_vwap_spec (ob : Orderbook) (side : Side) (limit : ℕ) :
    calculateAveragePrice ob side limit =
      (let orders := match side with
        | .ask => ob.asks
        | .bid => ob.bids
       let used := orders.take limit
       let totalQty := (used.map OrderLevel.quantity).sum
       let totalAmt := (used.map fun o => o.price * o.quantity).sum
       if totalQty = 0 then none
       else some { averagePrice := totalAmt / totalQty
                   totalQuantity := totalQty
                   totalAmount := totalAmt
                   ordersCount := min limit orders.length }) := by
  cases side <;>
    simp only [calculateAveragePrice, foldl_add_eq_sum, zero_add, List.length_take]

/-- C7 counterexample: `UpbitService.getOrderbook` truncates the raw units
with `slice(0, limit)` before sorting, so with the unsorted input
`[(ask 10), (ask 1)]` and depth 1 the single level used has price 10, while
the best-priced ask level of the input has price 1. -/
theorem upbit_truncates_before_sorting :
    (upbitGetOrderbook [⟨10, 1, 5, 1⟩, ⟨1, 1, 7, 1⟩] 1).asks = [⟨10, 1⟩] ∧
    (List.insertionSort priceAsc
        (([⟨10, 1, 5, 1⟩, ⟨1, 1, 7, 1⟩] : List UpbitUnit).map UpbitUnit.askLevel)).take 1
      = [⟨1, 1⟩] ∧
    ([(⟨10, 1⟩ : OrderLevel)] : List OrderLevel) ≠ [⟨1, 1⟩] := by
  refine ⟨?_, ?_, ?_⟩ <;> decide

/-- C7 amended: the adapters sort only after truncating to the first K
input levels (and Binance does not sort at all), so the K levels used are
the K best-priced levels exactly when the input side already arrives
sorted (asks ascending, bids descending). -/
theorem sorted_input_gives_best_levels (units : List UpbitUnit) (limit : ℕ)
    (ha : List.Sorted priceAsc (units.map UpbitUnit.askLevel))
    (hb : List.Sorted priceDesc (units.map UpbitUnit.bidLevel)) :
    (upbitGetOrderbook units limit).asks = (units.map UpbitUnit.askLevel).take limit ∧
    (upbitGetOrderbook units limit).bids = (units.map UpbitUnit.bidLevel).take limit ∧
    ∀ (asks bids : List (ℚ × ℚ)),
      (binanceGetOrderbook asks bids limit).asks
        = ((asks.map fun p => (⟨p.1, p.2⟩ : OrderLevel)).take limit) := by
  refine ⟨?_, ?_, ?_⟩
  · show List.insertionSort priceAsc ((units.take limit).map UpbitUnit.askLevel)
        = (units.map UpbitUnit.askLevel).take limit
    rw [List.map_take]
    exact List.Sorted.insertionSort_eq
      (List.Pairwise.sublist (List.take_sublist limit (units.map UpbitUnit.askLevel)) ha)
  · show List.insertionSort priceDesc ((units.take limit).map UpbitUnit.bidLevel)
        = (units.map UpbitUnit.bidLevel).take limit
    rw [List.map_take]
    exact List.Sorted.insertionSort_eq
      (List.Pairwise.sublist (List.take_sublist limit (units.map UpbitUnit.bidLevel)) hb)
  · intro asks bids
    show (asks.take limit).map (fun p => (⟨p.1, p.2⟩ : OrderLevel))
        = (asks.map fun p => (⟨p.1, p.2⟩ : OrderLevel)).take limit
    exact List.map_take ..

/-- Witness for C7 amended, at a two-level book already sorted on both
sides and depth 1. -/
theorem sorted_input_gives_best_levels_witness :
    (upbitGetOrderbook [⟨1, 1, 7, 1⟩, ⟨10, 1, 5, 1⟩] 1).asks
      = (([⟨1, 1, 7, 1⟩, ⟨10, 1, 5, 1⟩] : List UpbitUnit).map UpbitUnit.askLevel).take 1 :=
  (sorted_input_gives_best_levels [⟨1, 1, 7, 1⟩, ⟨10, 1, 5, 1⟩] 1 (by decide) (by decide)).1

/-- C6 counterexample: with a zero buy price the premium computation does
not fail — the `try`/`catch` never fires because JavaScript division does
not throw — and the produced premium is `Infinity`, which is stored in the
result object. -/
theorem premium_zero_divisor_produces_infinity :
    calculateCoinPremiumStage (.num 101000000) (.num 0) = some .posInf ∧
    (calculateCoinPremiumPercent (.num 101000000) (.num 0)).isFinite = false := by
  constructor
  · norm_num [calculateCoinPremiumStage, calculateCoinPremiumPercent, JSNum.jsSub, JSNum.jsDiv,
      JSNum.jsMul]
  · norm_num [calculateCoinPremiumPercent, JSNum.jsSub, JSNum.jsDiv, JSNum.jsMul, JSNum.isFinite]

/-- C6 amended: the premium computation is pure and total, and for finite
nonzero `binanceBuyPriceKrw` it yields exactly
`(sell - buy) / buy * 100`; for a zero buy price it yields `Infinity`
(sign following the sell price) or NaN for `0 / 0`, propagated into the
result rather than reported as a failure. -/
theorem premium_pure_total_and_zero_divisor (s b : ℚ) :
    (b ≠ 0 → calculateCoinPremiumStage (.num s) (.num b)
        = some (.num ((s - b) / b * 100))) ∧
    (0 < s → calculateCoinPremiumStage (.num s) (.num 0) = some .posInf) ∧
    (s < 0 → calculateCoinPremiumStage (.num s) (.num 0) = some .negInf) ∧
    calculateCoinPremiumStage (.num 0) (.num 0) = some .nan := by
  have h100 : (0 : ℚ) < 100 := by norm_num
  refine ⟨?_, ?_, ?_, ?_⟩
  · intro hb
    simp [calculateCoinPremiumStage, calculateCoinPremiumPercent, JSNum.jsSub, JSNum.jsDiv,
      JSNum.jsMul, hb]
  · intro hs
    simp [calculateCoinPremiumStage, calculateCoinPremiumPercent, JSNum.jsSub, JSNum.jsDiv,
      JSNum.jsMul, sub_zero, hs, h100]
  · intro hs
    simp [calculateCoinPremiumStage, calculateCoinPremiumPercent, JSNum.jsSub, JSNum.jsDiv,
      JSNum.jsMul, sub_zero, hs, lt_asymm hs, h100]
  · simp [calculateCoinPremiumStage, calculateCoinPremiumPercent, JSNum.jsSub, JSNum.jsDiv,
      JSNum.jsMul, sub_zero]

/-- Witness for C6 amended: the spec's own worked example (premium of
roughly 3.59 percent) and the Infinity case at a concrete positive sell
price. -/
theorem premium_pure_total_and_zero_divisor_witness :
    calculateCoinPremiumStage (.num 101000000) (.num 97500000)
      = some (.num ((101000000 - 97500000) / 97500000 * 100)) ∧
    calculateCoinPremiumStage (.num 101000000) (.num 0) = some .posInf :=
  ⟨(premium_pure_total_and_zero_divisor 101000000 97500000).1 (by norm_num),
   (premium_pure_total_and_zero_divisor 101000000 0).2.1 (by norm_num)⟩

/-- C8: the profit fields recorded for an executed trade satisfy the
shared formulas: gross profit `(sell - buy) * qty`, trading fees
`rate * (buy + sell) * qty`, transfer fees `withdrawalFee * sell`, net
profit `gross - trading - transfer`, and the profit rate
`net / (buy * qty) * 100`. -/
theorem calculateProfit_formulas (b s q r w : ℚ) :
    (calculateProfit ⟨b, s, q, r⟩ ⟨some w⟩).grossProfit = (s - b) * q ∧
    (calculateProfit ⟨b, s, q, r⟩ ⟨some w⟩).tradingFees = r * (b + s) * q ∧
    (calculateProfit ⟨b, s, q, r⟩ ⟨some w⟩).transferFees = w * s ∧
    (calculateProfit ⟨b, s, q, r⟩ ⟨some w⟩).netProfit =
      (calculateProfit ⟨b, s, q, r⟩ ⟨some w⟩).grossProfit
        - (calculateProfit ⟨b, s, q, r⟩ ⟨some w⟩).tradingFees
        - (calculateProfit ⟨b, s, q, r⟩ ⟨some w⟩).transferFees ∧
    (calculateProfit ⟨b, s, q, r⟩ ⟨some w⟩).profitRate =
      (calculateProfit ⟨b, s, q, r⟩ ⟨some w⟩).netProfit / (b * q) * 100 := by
  refine ⟨rfl, ?_, rfl, rfl, rfl⟩
  show b * q * r + s * q * r = r * (b + s) * q
  ring

/-- C1: in both the global and the per-user scope the intensity update
follows the rule "add 1 when `|p| ≥ T`, else subtract 1 floored at 0", and
over any sequence of premium observations the stored intensity starting
from 0 never becomes negative. -/
theorem intensity_rule_and_never_negative (symbol : String) (userId : ℕ)
    (stored : Option ℤ) (p T : ℚ) (trig : ℤ) :
    ((updateTradingIntensity symbol stored p T trig).newIntensity =
      if |p| ≥ T then stored.getD 0 + 1 else max (stored.getD 0 - 1) 0) ∧
    ((updateUserTradingIntensity userId symbol stored p T).newIntensity =
      if |p| ≥ T then stored.getD 0 + 1 else max (stored.getD 0 - 1) 0) ∧
    (∀ ps : List ℚ,
      0 ≤ ps.foldl
        (fun c q => (updateTradingIntensity symbol (some c) q T trig).newIntensity) 0 ∧
      0 ≤ ps.foldl
        (fun c q => (updateUserTradingIntensity userId symbol (some c) q T).newIntensity) 0) := by
  refine ⟨rfl, rfl, fun ps => ⟨?_, ?_⟩⟩
  · refine foldl_step_nonneg _ (fun c q hc => ?_) ps 0 le_rfl
    show 0 ≤ if |q| ≥ T then c + 1 else max (c - 1) 0
    split
    · omega
    · exact le_max_right _ _
  · refine foldl_step_nonneg _ (fun c q hc => ?_) ps 0 le_rfl
    show 0 ≤ if |q| ≥ T then c + 1 else max (c - 1) 0
    split
    · omega
    · exact le_max_right _ _

/-- C2 counterexample: a per-user scope whose updated intensity (5) reaches
the user's trigger threshold (the default `trading_intensity_threshold` of
5) emits no TradingOpportunity event at all — `updateUserTradingIntensity`
contains no trigger check. -/
theorem user_scope_reaches_threshold_without_emission :
    (updateUserTradingIntensity 1 "BTC" (some 4) 2 1).newIntensity = 5 ∧
    ((5 : ℤ) ≥ 5) = True ∧
    (updateUserTradingIntensity 1 "BTC" (some 4) 2 1).emitted = [] := by
  refine ⟨?_, by simp, ?_⟩ <;> decide

/-- C2 amended: for the global scope a TradingOpportunity is emitted if
and only if the post-update intensity is at least the configured
threshold, on every cycle in which the condition holds; per-user scope
updates never emit an event. -/
theorem opportunity_emission_global_only (symbol : String) (userId : ℕ) (stored : Option ℤ)
    (p T : ℚ) (trig : ℤ) :
    ((updateTradingIntensity symbol stored p T trig).emitted ≠ [] ↔
      (updateTradingIntensity symbol stored p T trig).newIntensity ≥ trig) ∧
    ((updateTradingIntensity symbol stored p T trig).emitted =
      if (updateTradingIntensity symbol stored p T trig).newIntensity ≥ trig then
        [⟨symbol, p, (updateTradingIntensity symbol stored p T trig).newIntensity⟩]
      else []) ∧
    (updateUserTradingIntensity userId symbol stored p T).emitted = [] := by
  refine ⟨?_, rfl, rfl⟩
  by_cases h : (updateTradingIntensity symbol stored p T trig).newIntensity ≥ trig
  · constructor
    · intro _; exact h
    · intro _
      show (if (updateTradingIntensity symbol stored p T trig).newIntensity ≥ trig then
          [(⟨symbol, p, (updateTradingIntensity symbol stored p T trig).newIntensity⟩ :
            Opportunity)] else []) ≠ []
      simp [h]
  · constructor
    · intro hne
      exfalso
      apply hne
      show (if (updateTradingIntensity symbol stored p T trig).newIntensity ≥ trig then
          [(⟨symbol, p, (updateTradingIntensity symbol stored p T trig).newIntensity⟩ :
            Opportunity)] else []) = []
      simp [h]
    · intro hge; exact absurd hge h

/-- C9: in both scopes, the database row and the Redis cache are written
exactly when the newly computed intensity differs from the stored one;
when they are equal nothing is written and the stored state is unchanged. -/
theorem intensity_write_only_on_change (symbol : String) (userId : ℕ) (stored : Option ℤ)
    (p T : ℚ) (trig : ℤ) :
    writeOnlyOnChange stored (updateTradingIntensity symbol stored p T trig) ∧
    writeOnlyOnChange stored (updateUserTradingIntensity userId symbol stored p T) :=
  ⟨writeOnlyOnChange_mk stored _ p _, writeOnlyOnChange_mk stored _ p _⟩

/-- C5: whatever the collaborator outcomes, the sequence of status values
written to a trade record is a prefix of
`pending, buying, transferring, selling, completed`, or a nonempty such
non-terminal sequence terminated by `failed`; and `completed_at` is set if
and only if the record's last written status is terminal. -/
theorem trade_record_status_lifecycle (symbol : String) (lockFree : Bool)
    (validation create analyze : Except String Unit) (tradeParams : TradeParams)
    (coin : Coin) (dryRun : Bool) :
    ((executeOnce symbol lockFree validation create analyze tradeParams coin dryRun).statusTrace
        <+: statusChain ∨
      ∃ l, l ≠ [] ∧ l <+: [TradeStatus.pending, .buying, .transferring, .selling] ∧
        (executeOnce symbol lockFree validation create analyze tradeParams coin
            dryRun).statusTrace = l ++ [.failed]) ∧
    ((executeOnce symbol lockFree validation create analyze tradeParams coin
        dryRun).completedAtSet = true ↔
      ∃ st, (executeOnce symbol lockFree validation create analyze tradeParams coin
          dryRun).statusTrace.getLast? = some st ∧ st.isTerminal = true) := by
  cases lockFree with
  | false =>
    constructor
    · exact Or.inl (by simp [executeOnce])
    · simp [executeOnce]
  | true =>
    cases validation with
    | error e =>
      constructor
      · exact Or.inl (by simp [executeOnce])
      · simp [executeOnce]
    | ok u =>
      cases create with
      | error e =>
        constructor
        · exact Or.inl (by simp [executeOnce])
        · simp [executeOnce]
      | ok u' =>
        cases analyze with
        | error e =>
          constructor
          · exact Or.inr ⟨[.pending], by simp, by decide, by simp [executeOnce]⟩
          · constructor
            · intro _
              exact ⟨.failed, by simp [executeOnce], rfl⟩
            · intro _
              simp [executeOnce]
        | ok u'' =>
          cases dryRun with
          | true =>
            refine ⟨Or.inl ?_, ⟨fun _ => ⟨.completed, ?_, rfl⟩, fun _ => rfl⟩⟩
            · show ([TradeStatus.pending, .buying, .transferring, .selling, .completed] :
                  List TradeStatus) <+: statusChain
              decide
            · show ([TradeStatus.pending, .buying, .transferring, .selling, .completed] :
                  List TradeStatus).getLast? = some .completed
              decide
          | false =>
            refine ⟨Or.inr ⟨[.pending, .buying], by simp, by decide, ?_⟩,
              ⟨fun _ => ⟨.failed, ?_, rfl⟩, fun _ => rfl⟩⟩
            · show ([TradeStatus.pending, .buying, .failed] : List TradeStatus)
                  = [TradeStatus.pending, .buying] ++ [.failed]
              decide
            · show ([TradeStatus.pending, .buying, .failed] : List TradeStatus).getLast?
                  = some .failed
              decide

/-- C10: a live (non-dry-run) execution that acquires the lock, passes
validation and reaches the buy phase always fails: the buy step throws its
not-implemented error unconditionally, the returned result has
`success = false`, the record's status sequence is
`pending, buying, failed` with the error message captured, and no live
execution can ever write `completed`. -/
theorem live_trade_never_completes (symbol : String) (tradeParams : TradeParams)
    (coin : Coin) :
    (executeOnce symbol true (.ok ()) (.ok ()) (.ok ()) tradeParams coin false).success
      = false ∧
    (executeOnce symbol true (.ok ()) (.ok ()) (.ok ()) tradeParams coin false).statusTrace
      = [.pending, .buying, .failed] ∧
    (executeOnce symbol true (.ok ()) (.ok ()) (.ok ()) tradeParams coin false).recordError
      = some buyNotImplementedMsg ∧
    (executeOnce symbol true (.ok ()) (.ok ()) (.ok ()) tradeParams coin false).completedAtSet
      = true ∧
    ∀ (lockFree : Bool) (validation create analyze : Except String Unit),
      TradeStatus.completed ∉
        (executeOnce symbol lockFree validation create analyze tradeParams coin
          false).statusTrace := by
  refine ⟨rfl, rfl, rfl, rfl, ?_⟩
  intro lockFree validation create analyze
  cases lockFree <;> cases validation <;> cases create <;> cases analyze <;>
    simp [executeOnce, executeTradeCycle, executeBuyOrder]

/-- C3 counterexample: a call whose preconditions fail (here: all required
bot settings are missing) still acquires the execution lock first —
`executeOnce` takes the lock before it runs `validateTradeConditions` — so
"no execution lock taken" does not hold, even though the call does return a
structured failure and creates no trade record. -/
theorem validation_failure_still_takes_lock :
    (∃ e, validateTradeConditions "BTC"
        ⟨none, none, none, none, 1000000, none, [], 0, none, none⟩ = .error e) ∧
    (executeOnce "BTC" true
        (validateTradeConditions "BTC" ⟨none, none, none, none, 1000000, none, [], 0, none, none⟩)
        (.ok ()) (.ok ()) ⟨1, 1, 1, 1⟩ ⟨none⟩ true).lockAcquired = true ∧
    (executeOnce "BTC" true
        (validateTradeConditions "BTC" ⟨none, none, none, none, 1000000, none, [], 0, none, none⟩)
        (.ok ()) (.ok ()) ⟨1, 1, 1, 1⟩ ⟨none⟩ true).recordCreated = false ∧
    (executeOnce "BTC" true
        (validateTradeConditions "BTC" ⟨none, none, none, none, 1000000, none, [], 0, none, none⟩)
        (.ok ()) (.ok ()) ⟨1, 1, 1, 1⟩ ⟨none⟩ true).success = false :=
  ⟨⟨_, rfl⟩, rfl, rfl, rfl⟩

/-- C3 amended: when validation fails, `executeOnce` returns a structured
failure carrying the validation error, creates no trade record and writes
no status, but it has acquired the per-(user, symbol) lock before
validating; the lock is released in the `finally` block, so it is not left
held after the call returns. -/
theorem validation_failure_frame (symbol : String) (v : ValidationInputs) (e : String)
    (create analyze : Except String Unit) (tradeParams : TradeParams) (coin : Coin)
    (dryRun : Bool) (h : validateTradeConditions symbol v = .error e) :
    (executeOnce symbol true (validateTradeConditions symbol v) create analyze tradeParams
        coin dryRun).success = false ∧
    (executeOnce symbol true (validateTradeConditions symbol v) create analyze tradeParams
        coin dryRun).recordCreated = false ∧
    (executeOnce symbol true (validateTradeConditions symbol v) create analyze tradeParams
        coin dryRun).statusTrace = [] ∧
    (executeOnce symbol true (validateTradeConditions symbol v) create analyze tradeParams
        coin dryRun).completedAtSet = false ∧
    (executeOnce symbol true (validateTradeConditions symbol v) create analyze tradeParams
        coin dryRun).lockAcquired = true ∧
    (executeOnce symbol true (validateTradeConditions symbol v) create analyze tradeParams
        coin dryRun).lockHeldAfter = false ∧
    (executeOnce symbol true (validateTradeConditions symbol v) create analyze tradeParams
        coin dryRun).resultError = some e := by
  rw [h]
  exact ⟨rfl, rfl, rfl, rfl, rfl, rfl, rfl⟩

/-- Witness for C3 amended, at a validation input with every required bot
setting missing. -/
theorem validation_failure_frame_witness :
    (executeOnce "BTC" true
        (validateTradeConditions "BTC" ⟨none, none, none, none, 1000000, none, [], 0, none, none⟩)
        (.ok ()) (.ok ()) ⟨1, 1, 1, 1⟩ ⟨none⟩ false).recordCreated = false ∧
    (executeOnce "BTC" true
        (validateTradeConditions "BTC" ⟨none, none, none, none, 1000000, none, [], 0, none, none⟩)
        (.ok ()) (.ok ()) ⟨1, 1, 1, 1⟩ ⟨none⟩ false).lockAcquired = true :=
  ⟨(validation_failure_frame "BTC" ⟨none, none, none, none, 1000000, none, [], 0, none, none⟩
      _ (.ok ()) (.ok ()) ⟨1, 1, 1, 1⟩ ⟨none⟩ false rfl).2.1,
   (validation_failure_frame "BTC" ⟨none, none, none, none, 1000000, none, [], 0, none, none⟩
      _ (.ok ()) (.ok ()) ⟨1, 1, 1, 1⟩ ⟨none⟩ false rfl).2.2.2.2.1⟩

end Coinbot
